import Mathlib

/-!
Shallow embedding of the `occupied` crate (`src/lib.rs`).

The crate manipulates a single "slot", a `&mut Option<T>`. Because every
handle holds the *exclusive* borrow of its slot, a handle's state is exactly
the slot's current contents, so we embed each handle type as a structure
holding an `Option T` and embed each operation as a pure function from the
handle (or slot) state to its result together with the slot state afterwards.

The crate's internals use `unwrap_unchecked`, `unreachable_unchecked` and
two constructors with a caller-checked precondition (`Occupied::new_unchecked`
requires `Some`, `Vacant::new_unchecked` requires `None`; each carries a
`debug_assert!` of its precondition). Violating one of these contracts is
undefined behavior, which we make explicit: every operation that contains
such a site returns a `UBRes`, whose `ub` constructor marks that the
undefined-behavior branch was reached. Operations with no such site are
total.
-/

/-- Result of an operation whose source contains an unchecked site:
`ok` carries the defined result, `ub` marks that a safety contract was
violated (a `debug_assert` failure / undefined behavior in the source). -/
inductive UBRes (α : Type) : Type where
  | ok : α → UBRes α
  | ub : UBRes α
deriving DecidableEq, Repr

/-- Map over the defined result of a `UBRes`. -/
def UBRes.map {α β : Type} (f : α → β) : UBRes α → UBRes β
  | UBRes.ok a => UBRes.ok (f a)
  | UBRes.ub => UBRes.ub

/-- `Occupied<'a, T>` (src/lib.rs lines 70-73): wraps `option: &'a mut Option<T>`,
claimed to be `Some`. The field holds the referenced slot's current contents. -/
structure Occupied (T : Type) : Type where
  option : Option T
deriving DecidableEq, Repr

/-- `Vacant<'a, T>` (src/lib.rs lines 167-170): wraps `option: &'a mut Option<T>`,
claimed to be `None`. The field holds the referenced slot's current contents. -/
structure Vacant (T : Type) : Type where
  option : Option T
deriving DecidableEq, Repr

/-- `Entry<'a, T>` (src/lib.rs lines 364-371): tagged union of the two handles. -/
inductive Entry (T : Type) : Type where
  | occupied : Occupied T → Entry T
  | vacant : Vacant T → Entry T
deriving DecidableEq, Repr

/-- `Occupied::new_unchecked` (src/lib.rs lines 84-89). Safety contract: the
option MUST be `Some` (`debug_assert!(option.is_some())`); a violation is the
contract-violation failure class, modelled as `ub`. -/
def Occupied.new_unchecked {T : Type} (option : Option T) : UBRes (Occupied T) :=
  if option.isSome then UBRes.ok ⟨option⟩ else UBRes.ub

/-- `Vacant::new_unchecked` (src/lib.rs lines 181-186). Safety contract: the
option MUST be `None` (`debug_assert!(option.is_none())`); a violation is
modelled as `ub`. -/
def Vacant.new_unchecked {T : Type} (option : Option T) : UBRes (Vacant T) :=
  if option.isNone then UBRes.ok ⟨option⟩ else UBRes.ub

/-- `Occupied::get` (src/lib.rs lines 105-110):
`self.option.as_ref().unwrap_unchecked()`; `unwrap_unchecked` on `None` is
undefined behavior (`ub`). -/
def Occupied.get {T : Type} (self : Occupied T) : UBRes T :=
  match self.option with
  | some v => UBRes.ok v
  | none => UBRes.ub

/-- `Occupied::get_mut` (src/lib.rs lines 128-133):
`self.option.as_mut().unwrap_unchecked()`. The returned `&mut T` is embedded
as the current value; a write through it is a slot update at the call site. -/
def Occupied.get_mut {T : Type} (self : Occupied T) : UBRes T :=
  match self.option with
  | some v => UBRes.ok v
  | none => UBRes.ub

/-- `Occupied::into_inner` (src/lib.rs lines 153-157): return the underlying
slot reference, i.e. its current contents. Total, no unchecked site. -/
def Occupied.into_inner {T : Type} (self : Occupied T) : Option T :=
  self.option

/-- `Vacant::into_inner` (src/lib.rs lines 210-214). -/
def Vacant.into_inner {T : Type} (self : Vacant T) : Option T :=
  self.option

/-- `Occupied::into_mut` (src/lib.rs lines 244-252):
`self.into_inner().as_mut().unwrap_unchecked()`. -/
def Occupied.into_mut {T : Type} (self : Occupied T) : UBRes T :=
  let option := self.into_inner
  match option with
  | some v => UBRes.ok v
  | none => UBRes.ub

/-- `Occupied::take` (src/lib.rs lines 269-280):
`self.into_inner()`, then `option.take().unwrap_unchecked()`. `Option::take`
moves the contents out and leaves `None` in the slot; the result pairs the
taken value with the slot state afterwards. -/
def Occupied.take {T : Type} (self : Occupied T) : UBRes (T × Option T) :=
  let option := self.into_inner
  match option with
  | some v => UBRes.ok (v, (none : Option T))
  | none => UBRes.ub

/-- `Occupied::extract` (src/lib.rs lines 288-298): like `take`, but also
builds `Vacant::new_unchecked(option)` over the just-emptied slot. -/
def Occupied.extract {T : Type} (self : Occupied T) : UBRes (Vacant T × T) :=
  let option := self.into_inner
  match option with
  | some item =>
    match Vacant.new_unchecked (none : Option T) with
    | UBRes.ok vacant => UBRes.ok (vacant, item)
    | UBRes.ub => UBRes.ub
  | none => UBRes.ub

/-- `Vacant::insert` (src/lib.rs lines 333-357): matches on the slot; the
`Some` arm is `unreachable_unchecked()` (undefined behavior, `ub`); the `None`
arm writes `Some(item)` with `ptr::write` and returns
`Occupied::new_unchecked` over the slot. -/
def Vacant.insert {T : Type} (self : Vacant T) (item : T) : UBRes (Occupied T) :=
  let option := self.into_inner
  match option with
  | some _ => UBRes.ub
  | none => Occupied.new_unchecked (some item)

/-- `examine` (src/lib.rs lines 448-454): classify the slot, building the
matching handle with the corresponding unchecked constructor over the whole
option (`opt @ &mut Some(_)` binds the full option). -/
def examine {T : Type} (option : Option T) : UBRes (Entry T) :=
  match option with
  | some v =>
    match Occupied.new_unchecked (some v) with
    | UBRes.ok occupied => UBRes.ok (Entry.occupied occupied)
    | UBRes.ub => UBRes.ub
  | none =>
    match Vacant.new_unchecked (none : Option T) with
    | UBRes.ok vacant => UBRes.ok (Entry.vacant vacant)
    | UBRes.ub => UBRes.ub

/-- `Occupied::new` (src/lib.rs lines 231-238): classify via `examine`,
keep the `Occupied` arm. -/
def Occupied.new {T : Type} (option : Option T) : UBRes (Option (Occupied T)) :=
  match examine option with
  | UBRes.ok (Entry.occupied occupied) => UBRes.ok (some occupied)
  | UBRes.ok (Entry.vacant _) => UBRes.ok none
  | UBRes.ub => UBRes.ub

/-- `Vacant::new` (src/lib.rs lines 320-325). -/
def Vacant.new {T : Type} (option : Option T) : UBRes (Option (Vacant T)) :=
  match examine option with
  | UBRes.ok (Entry.vacant vacant) => UBRes.ok (some vacant)
  | UBRes.ok (Entry.occupied _) => UBRes.ok none
  | UBRes.ub => UBRes.ub

/-- `Entry::into_inner` (src/lib.rs lines 434-439). -/
def Entry.into_inner {T : Type} (self : Entry T) : Option T :=
  match self with
  | Entry.occupied occ => occ.into_inner
  | Entry.vacant vac => vac.into_inner

/-- `Entry::and_modify` (src/lib.rs lines 376-382): on the `Occupied` variant,
`f(occupied.as_mut())` mutates the value through `get_mut` in place (the slot
afterwards holds `f v`); on `Vacant`, no-op. The closure `f : &mut T` mutation
is embedded as a function `T → T`. -/
def Entry.and_modify {T : Type} (self : Entry T) (f : T → T) : UBRes (Entry T) :=
  match self with
  | Entry.occupied occ =>
    match occ.get_mut with
    | UBRes.ok v => UBRes.ok (Entry.occupied ⟨some (f v)⟩)
    | UBRes.ub => UBRes.ub
  | Entry.vacant vac => UBRes.ok (Entry.vacant vac)

/-- `Entry::or_insert_with` (src/lib.rs lines 398-404). -/
def Entry.or_insert_with {T : Type} (self : Entry T) (default : Unit → T) :
    UBRes (Occupied T) :=
  match self with
  | Entry.occupied occ => UBRes.ok occ
  | Entry.vacant vac => vac.insert (default ())

/-- `Entry::or_insert` (src/lib.rs lines 388-391):
`self.or_insert_with(|| default)`. -/
def Entry.or_insert {T : Type} (self : Entry T) (default : T) : UBRes (Occupied T) :=
  self.or_insert_with (fun _ => default)

/-- `Entry::remove` (src/lib.rs lines 413-427): `opt = self.into_inner()`,
`item = opt.take()` (which leaves `None` in the slot), then
`Vacant::new_unchecked(opt)` over the emptied slot. -/
def Entry.remove {T : Type} (self : Entry T) : UBRes (Option T × Vacant T) :=
  let opt := self.into_inner
  let item := opt
  match Vacant.new_unchecked (none : Option T) with
  | UBRes.ok vac => UBRes.ok (item, vac)
  | UBRes.ub => UBRes.ub

/-- `OptionExt::peek_some` for `Option<T>` (src/lib.rs lines 508-511). -/
def OptionExt.peek_some {T : Type} (self : Option T) : UBRes (Option (Occupied T)) :=
  Occupied.new self

/-- `OptionExt::peek_empty` for `Option<T>` (src/lib.rs lines 513-516). -/
def OptionExt.peek_empty {T : Type} (self : Option T) : UBRes (Option (Vacant T)) :=
  Vacant.new self

/-- `OptionExt::entry` for `Option<T>` (src/lib.rs lines 518-521). -/
def OptionExt.entry {T : Type} (self : Option T) : UBRes (Entry T) :=
  examine self

/-- `OptionExt::emplace` for `Option<T>` (src/lib.rs lines 523-529):
`*self = Some(item)` unconditionally, then `Occupied::new_unchecked(self)`. -/
def OptionExt.emplace {T : Type} (self : Option T) (item : T) : UBRes (Occupied T) :=
  let _dropped := self
  let self' := (some item : Option T)
  Occupied.new_unchecked self'

/-- `OptionExt::get_or_emplace_with` for `Option<T>` (src/lib.rs lines 531-539):
`if self.is_none() { *self = Some(item()); }` then
`Occupied::new_unchecked(self)`. -/
def OptionExt.get_or_emplace_with {T : Type} (self : Option T) (item : Unit → T) :
    UBRes (Occupied T) :=
  let self' := if self.isNone then some (item ()) else self
  Occupied.new_unchecked self'

/-- `OptionExt::get_or_emplace` (src/lib.rs lines 494-497):
`self.get_or_emplace_with(|| item)`. -/
def OptionExt.get_or_emplace {T : Type} (self : Option T) (item : T) :
    UBRes (Occupied T) :=
  OptionExt.get_or_emplace_with self (fun _ => item)

/-- Invariant of an `Occupied` handle (spec §3: for the handle's entire
lifetime, the referenced slot contains a value). -/
def Occupied.wf {T : Type} (self : Occupied T) : Prop :=
  self.option.isSome = true

/-- Invariant of a `Vacant` handle (spec §3: the referenced slot is empty). -/
def Vacant.wf {T : Type} (self : Vacant T) : Prop :=
  self.option.isNone = true

/-- Invariant of an `Entry`: the held handle satisfies its own invariant. -/
def Entry.wf {T : Type} : Entry T → Prop
  | Entry.occupied occ => occ.wf
  | Entry.vacant vac => vac.wf

/-- Variant tag of an `Entry`. -/
def Entry.isOccupiedB {T : Type} : Entry T → Bool
  | Entry.occupied _ => true
  | Entry.vacant _ => false

/-- Instrumented translation of `Entry::or_insert_with` (src/lib.rs lines
398-404) that additionally counts how many times `default` is invoked: the
`Occupied` arm contains no call site, the `Vacant` arm calls `default()`
exactly once. -/
def Entry.or_insert_with_count {T : Type} (self : Entry T) (default : Unit → T) :
    UBRes (Occupied T) × Nat :=
  match self with
  | Entry.occupied occ => (UBRes.ok occ, 0)
  | Entry.vacant vac => (vac.insert (default ()), 1)

/-- Instrumented translation of `Entry::and_modify` (src/lib.rs lines 376-382)
that additionally counts how many times `f` is invoked: only the `Occupied`
arm contains the call `f(occupied.as_mut())`. -/
def Entry.and_modify_count {T : Type} (self : Entry T) (f : T → T) :
    UBRes (Entry T) × Nat :=
  match self with
  | Entry.occupied occ =>
    match occ.get_mut with
    | UBRes.ok v => (UBRes.ok (Entry.occupied ⟨some (f v)⟩), 1)
    | UBRes.ub => (UBRes.ub, 1)
  | Entry.vacant vac => (UBRes.ok (Entry.vacant vac), 0)

/-- Claim C1: classifying any slot never fails and yields an `Entry` whose
variant exactly matches the slot's occupancy (`Occupied` iff the slot holds a
value, `Vacant` iff it is empty), and whose handle references the slot with
its contents unchanged. -/
theorem examine_classifies {T : Type} (o : Option T) :
    ∃ e, examine o = UBRes.ok e ∧ Entry.into_inner e = o ∧
      Entry.isOccupiedB e = o.isSome :=
  match o with
  | some v => ⟨Entry.occupied ⟨some v⟩, rfl, rfl, rfl⟩
  | none => ⟨Entry.vacant ⟨none⟩, rfl, rfl, rfl⟩

/-- Claim C2: for an empty slot (the `Vacant` handle references `none`) and
any value `v`, `Vacant.insert v` followed by `Occupied.take` on the returned
handle gives back exactly `v` and leaves the slot empty. -/
theorem insert_then_take_roundtrip {T : Type} (v : T) :
    ∃ occ, Vacant.insert (⟨none⟩ : Vacant T) v = UBRes.ok occ ∧
      Occupied.take occ = UBRes.ok (v, (none : Option T)) :=
  ⟨⟨some v⟩, rfl, rfl⟩

/-- Claim C3: through the safe public surface every operation is defined
(never reaches `ub`) and preserves the handle invariants: classification
yields a well-formed `Entry`; on a well-formed `Occupied` handle (slot
`some a`) the unchecked `get`/`get_mut`/`into_mut`/`take`/`extract` sites are
all satisfied; on a well-formed `Vacant` handle (slot `none`) the
`unreachable_unchecked` branch of `insert` is not taken; and the `Entry`
combinators and `OptionExt` methods return well-formed handles. -/
theorem safe_surface_no_ub {T : Type} (o : Option T) (a v : T) (f : T → T)
    (d : Unit → T) :
    (∃ e, examine o = UBRes.ok e ∧ Entry.wf e) ∧
    Occupied.get (⟨some a⟩ : Occupied T) = UBRes.ok a ∧
    Occupied.get_mut (⟨some a⟩ : Occupied T) = UBRes.ok a ∧
    Occupied.into_mut (⟨some a⟩ : Occupied T) = UBRes.ok a ∧
    Occupied.take (⟨some a⟩ : Occupied T) = UBRes.ok (a, none) ∧
    (Occupied.extract (⟨some a⟩ : Occupied T) = UBRes.ok (⟨none⟩, a) ∧
      Vacant.wf (⟨none⟩ : Vacant T)) ∧
    (Vacant.insert (⟨none⟩ : Vacant T) v = UBRes.ok ⟨some v⟩ ∧
      Occupied.wf (⟨some v⟩ : Occupied T)) ∧
    (∃ e2, Entry.and_modify (Entry.occupied ⟨some a⟩) f = UBRes.ok e2 ∧
      Entry.wf e2) ∧
    Entry.and_modify (Entry.vacant (⟨none⟩ : Vacant T)) f
      = UBRes.ok (Entry.vacant ⟨none⟩) ∧
    (∃ oc, Entry.or_insert_with (Entry.occupied (⟨some a⟩ : Occupied T)) d
      = UBRes.ok oc ∧ Occupied.wf oc) ∧
    (∃ oc, Entry.or_insert_with (Entry.vacant (⟨none⟩ : Vacant T)) d
      = UBRes.ok oc ∧ Occupied.wf oc) ∧
    (∃ p, Entry.remove (Entry.occupied (⟨some a⟩ : Occupied T))
      = UBRes.ok p ∧ Vacant.wf p.snd) ∧
    (∃ p, Entry.remove (Entry.vacant (⟨none⟩ : Vacant T))
      = UBRes.ok p ∧ Vacant.wf p.snd) ∧
    (∃ oc, OptionExt.emplace o v = UBRes.ok oc ∧ Occupied.wf oc) ∧
    (∃ oc, OptionExt.get_or_emplace_with o d = UBRes.ok oc ∧ Occupied.wf oc) := by
  cases o with
  | none =>
    exact ⟨⟨Entry.vacant ⟨none⟩, rfl, rfl⟩, rfl, rfl, rfl, rfl, ⟨rfl, rfl⟩,
      ⟨rfl, rfl⟩, ⟨Entry.occupied ⟨some (f a)⟩, rfl, rfl⟩, rfl,
      ⟨⟨some a⟩, rfl, rfl⟩, ⟨⟨some (d ())⟩, rfl, rfl⟩,
      ⟨(some a, ⟨none⟩), rfl, rfl⟩, ⟨(none, ⟨none⟩), rfl, rfl⟩,
      ⟨⟨some v⟩, rfl, rfl⟩, ⟨⟨some (d ())⟩, rfl, rfl⟩⟩
  | some w =>
    exact ⟨⟨Entry.occupied ⟨some w⟩, rfl, rfl⟩, rfl, rfl, rfl, rfl, ⟨rfl, rfl⟩,
      ⟨rfl, rfl⟩, ⟨Entry.occupied ⟨some (f a)⟩, rfl, rfl⟩, rfl,
      ⟨⟨some a⟩, rfl, rfl⟩, ⟨⟨some (d ())⟩, rfl, rfl⟩,
      ⟨(some a, ⟨none⟩), rfl, rfl⟩, ⟨(none, ⟨none⟩), rfl, rfl⟩,
      ⟨⟨some v⟩, rfl, rfl⟩, ⟨⟨some w⟩, rfl, rfl⟩⟩

/-- Claim C4: `Entry.remove` on an `Occupied` entry returns `some` of the
removed value together with a `Vacant` handle over the emptied slot; on a
`Vacant` entry it returns `none` together with a `Vacant` handle and the slot
stays empty. -/
theorem remove_behavior {T : Type} (a : T) :
    Entry.remove (Entry.occupied (⟨some a⟩ : Occupied T))
      = UBRes.ok (some a, ⟨none⟩) ∧
    Entry.remove (Entry.vacant (⟨none⟩ : Vacant T)) = UBRes.ok (none, ⟨none⟩) :=
  ⟨rfl, rfl⟩

/-- Claim C5: `or_insert_with` invokes the producer zero times on an
`Occupied` entry and exactly once on a `Vacant` entry (instrumented count,
which agrees with the plain translation), and in both cases returns an
`Occupied` handle over a now-occupied slot: the pre-existing value in the
`Occupied` case, the produced value in the `Vacant` case. -/
theorem or_insert_with_invocations {T : Type} (a : T) (d : Unit → T)
    (e : Entry T) :
    (Entry.or_insert_with_count e d).snd
      = (if Entry.isOccupiedB e then 0 else 1) ∧
    (Entry.or_insert_with_count e d).fst = Entry.or_insert_with e d ∧
    Entry.or_insert_with (Entry.occupied (⟨some a⟩ : Occupied T)) d
      = UBRes.ok ⟨some a⟩ ∧
    Entry.or_insert_with (Entry.vacant (⟨none⟩ : Vacant T)) d
      = UBRes.ok ⟨some (d ())⟩ :=
  ⟨by cases e <;> rfl, by cases e <;> rfl, rfl, rfl⟩

/-- Claim C6: `and_modify` invokes `f` exactly once on an `Occupied` entry
and zero times on a `Vacant` entry (instrumented count, which agrees with the
plain translation); on an `Occupied` entry holding `a` it applies `f` in
place (slot becomes `some (f a)`, still occupied), on a `Vacant` entry it is
a no-op; the returned entry keeps the input's variant. -/
theorem and_modify_invocations {T : Type} (a : T) (f : T → T) (e : Entry T) :
    (Entry.and_modify_count e f).snd
      = (if Entry.isOccupiedB e then 1 else 0) ∧
    (Entry.and_modify_count e f).fst = Entry.and_modify e f ∧
    Entry.and_modify (Entry.occupied (⟨some a⟩ : Occupied T)) f
      = UBRes.ok (Entry.occupied ⟨some (f a)⟩) ∧
    Entry.and_modify (Entry.vacant (⟨none⟩ : Vacant T)) f
      = UBRes.ok (Entry.vacant ⟨none⟩) :=
  ⟨by
    cases e with
    | occupied occ =>
      obtain ⟨opt⟩ := occ
      cases opt <;> rfl
    | vacant vac => rfl,
   by
    cases e with
    | occupied occ =>
      obtain ⟨opt⟩ := occ
      cases opt <;> rfl
    | vacant vac => rfl,
   rfl, rfl⟩

/-- Claim C7: starting from an empty slot, `get_or_emplace 5` returns a
handle over `some 5` that reads `5`; a second `get_or_emplace 9` on the
resulting slot still returns a handle reading `5` — the insert happens only
on the first call, and in general `get_or_emplace` on an occupied slot
`some w` returns the existing value `w` unchanged. -/
theorem get_or_emplace_scenario {T : Type} (w x : T) :
    OptionExt.get_or_emplace (none : Option Nat) 5 = UBRes.ok ⟨some 5⟩ ∧
    Occupied.get (⟨some 5⟩ : Occupied Nat) = UBRes.ok 5 ∧
    OptionExt.get_or_emplace (some 5 : Option Nat) 9 = UBRes.ok ⟨some 5⟩ ∧
    OptionExt.get_or_emplace (some w) x = UBRes.ok ⟨some w⟩ :=
  ⟨rfl, rfl, rfl, rfl⟩

/-- Claim C8: `take` is `extract` with the resulting `Vacant` handle
discarded: for every `Occupied` handle the two agree (same returned value,
same slot state afterwards, `ub` exactly together), and on a handle over
`some a` both return `a` and leave the slot empty. -/
theorem take_eq_extract_discard {T : Type} (occ : Occupied T) :
    Occupied.take occ
      = UBRes.map (fun p => (p.snd, p.fst.option)) (Occupied.extract occ) ∧
    ∀ a : T, Occupied.take (⟨some a⟩ : Occupied T) = UBRes.ok (a, none) ∧
      Occupied.extract (⟨some a⟩ : Occupied T) = UBRes.ok (⟨none⟩, a) :=
  ⟨by obtain ⟨opt⟩ := occ; cases opt <;> rfl, fun a => ⟨rfl, rfl⟩⟩

/-- Claim C9: `emplace v` on any slot (empty or occupied) unconditionally
overwrites it, returning an `Occupied` handle over `some v` whose value reads
`v`; any previous contents are discarded (the result does not depend on the
old slot state). -/
theorem emplace_overwrites {T : Type} (o : Option T) (v : T) :
    OptionExt.emplace o v = UBRes.ok ⟨some v⟩ ∧
    Occupied.get (⟨some v⟩ : Occupied T) = UBRes.ok v :=
  ⟨rfl, rfl⟩

/-- Claim C10: the eager variants are extensionally the lazy ones with a
constant producer: `or_insert v` equals `or_insert_with (fun _ => v)` and
`get_or_emplace v` equals `get_or_emplace_with (fun _ => v)`, with the same
returned handle and the same final slot state. -/
theorem eager_eq_lazy {T : Type} (e : Entry T) (o : Option T) (v : T) :
    Entry.or_insert e v = Entry.or_insert_with e (fun _ => v) ∧
    OptionExt.get_or_emplace o v = OptionExt.get_or_emplace_with o (fun _ => v) :=
  ⟨rfl, rfl⟩
